import Mathlib

/-!
Verification development for the batch job engine of
`src/backend/backend/routes/batch_operations.py`.

The embedding models:
* the persisted data (job records, association rows, collection ids) as plain
  Lean structures and lists;
* the executor `process_batch_job` as a function producing the ordered list of
  states it commits to the store (one entry per `db.commit()` the Python code
  executes), driven by two oracles: `cancelObs k` tells whether the
  `db.refresh` before chunk `k` observes status CANCELLED (a concurrent
  cancellation), and `fails k` tells whether processing chunk `k` raises,
  and with which message;
* the HTTP routes `create_batch_add_job` and `cancel_batch_job` as pure
  functions from a database value to `Except ApiError` results.

Timestamps (`created_at` / `updated_at`) and the JSON round-trip of the
identifier list are not modelled: `company_ids_json` is kept directly as the
list of integers it serializes.
-/

namespace BatchOps

/-- Modelled from the spec: the status enum `BatchJobStatus` lives in
`backend/db/database.py`, which is not part of the provided sources; the spec
(§4.3) lists exactly the states PENDING, IN_PROGRESS, COMPLETED, FAILED,
CANCELLED. -/
inductive BatchJobStatus where
  | PENDING
  | IN_PROGRESS
  | COMPLETED
  | FAILED
  | CANCELLED
deriving DecidableEq, Repr

/-- Modelled from the spec: the job-type enum `BatchJobType` lives in
`backend/db/database.py`, which is not part of the provided sources; the spec
(§3) lists exactly ADD and DELETE. -/
inductive BatchJobType where
  | ADD
  | DELETE
deriving DecidableEq, Repr

/-- Modelled from the spec: the ORM model `CompanyCollectionAssociation` lives
in `backend/db/database.py`, which is not part of the provided sources; per the
spec (§3) an association is the logical pair (entity_id, collection_id). The
collection id is kept optional because the routes store `target_collection_id`
as a nullable column and the ADD path copies it verbatim into new rows. -/
structure CompanyCollectionAssociation where
  company_id : Int
  collection_id : Option Nat
deriving DecidableEq, Repr

/-- Modelled from the spec: the ORM model `BatchJob` lives in
`backend/db/database.py`, which is not part of the provided sources; the field
list follows the persisted job-record layout of spec §6 (id and timestamps are
kept outside the record: jobs are keyed externally in `Database.jobs`, and
timestamps are not modelled). `company_ids_json` is the deserialized content
of the stored JSON string. -/
structure BatchJob where
  job_type : BatchJobType
  source_collection_id : Nat
  target_collection_id : Option Nat
  company_ids_json : List Int
  total_count : Nat
  processed_count : Nat
  status : BatchJobStatus
  error_message : Option String
deriving DecidableEq, Repr

/-- The store visible to the HTTP routes: the set of existing collection ids,
the job records keyed by job id, and the association rows. -/
structure Database where
  collections : List Nat
  jobs : List (Nat × BatchJob)
  assocs : List CompanyCollectionAssociation
deriving DecidableEq, Repr

/-- HTTPException outcomes raised by the routes: status 404 and status 400. -/
inductive ApiError where
  | notFound (detail : String)
  | badRequest (detail : String)
deriving DecidableEq, Repr

/-- Request body of POST /batch/add-companies (`BatchAddRequest`). -/
structure BatchAddRequest where
  source_collection_id : Nat
  target_collection_id : Nat
  company_ids : List Int
deriving DecidableEq, Repr

/-! ### Executor: `process_batch_job` (lines 40-145) -/

/-- Existence check of lines 94-99: is there an association row with this
company id and this collection id? -/
def assocExists (assocs : List CompanyCollectionAssociation)
    (company_id : Int) (collection_id : Option Nat) : Bool :=
  assocs.any fun a => decide (a.company_id = company_id ∧ a.collection_id = collection_id)

/-- Batch-size selection of lines 70-75: individual items for small jobs,
batches of five for large ones. -/
def batch_size_for (total_items : Nat) : Nat :=
  if total_items ≤ 100 then 1 else 5

/-- Fuel-driven worker for `chunksOf`; the fuel only makes the recursion
structural, `chunksOf` supplies enough of it for the whole list. -/
def chunksOfAux (batch_size : Nat) : Nat → List Int → List (List Int)
  | 0, _ => []
  | _ + 1, [] => []
  | fuel + 1, a :: rest =>
      (a :: rest.take (batch_size - 1)) ::
        chunksOfAux batch_size fuel (rest.drop (batch_size - 1))

/-- The slices `company_ids[i:i+batch_size]` visited by the loop
`for i in range(0, len(company_ids), batch_size)` of line 80, in order. -/
def chunksOf (batch_size : Nat) (l : List Int) : List (List Int) :=
  chunksOfAux batch_size l.length l

/-- Which `db.commit()` of `process_batch_job` produced a committed state. -/
inductive CommitKind where
  | markInProgress
  | assocWrite
  | chunkProgress
  | finalProgress
  | markCompleted
  | markFailed
deriving DecidableEq, Repr

/-- One committed state of the store as seen from the executor: which commit
produced it, the job record, and the association rows at that point. -/
structure CommittedWrite where
  kind : CommitKind
  job : BatchJob
  assocs : List CompanyCollectionAssociation
deriving DecidableEq, Repr

/-- One chunk of the mutation loop, lines 89-123. For ADD: stage every id of
the chunk that has no existing (id, target) row, then bulk-insert the staged
rows, committing only when something was staged (line 110). For DELETE: remove
every row matching an id of the chunk and the source collection, and commit
unconditionally (line 123). Returns the new association rows and whether an
association commit was issued. -/
def applyChunk (job : BatchJob) (assocs : List CompanyCollectionAssociation)
    (batch_ids : List Int) : List CompanyCollectionAssociation × Bool :=
  match job.job_type with
  | BatchJobType.ADD =>
      let associations_to_add :=
        (batch_ids.filter fun company_id =>
          !(assocExists assocs company_id job.target_collection_id)).map
          fun company_id =>
            { company_id := company_id, collection_id := job.target_collection_id }
      if associations_to_add.isEmpty then (assocs, false)
      else (assocs ++ associations_to_add, true)
  | BatchJobType.DELETE =>
      (assocs.filter fun a =>
        !(decide (a.company_id ∈ batch_ids ∧ a.collection_id = some job.source_collection_id)),
       true)

/-- The chunk loop of lines 80-136, emitting each committed state in order.
`k` is the chunk index (`i / batch_size` of line 80) and `processed` the local
accumulator of line 77, equal to `job.processed_count` at every call. Before
each chunk the refreshed status is consulted through `cancelObs`; observing
CANCELLED returns with no further commit (lines 82-85). A chunk whose
processing raises (oracle `fails`) leads to the handler of lines 138-142:
status FAILED, the message recorded, one commit, loop over. After the last
chunk the final progress write of line 131 and the COMPLETED write of line 135
are committed. -/
def runChunks (cancelObs : Nat → Bool) (fails : Nat → Option String) :
    BatchJob → List CompanyCollectionAssociation → List (List Int) → Nat → Nat →
    List CommittedWrite
  | job, assocs, [], _, processed =>
      let j1 : BatchJob := { job with processed_count := processed }
      [⟨CommitKind.finalProgress, j1, assocs⟩,
       ⟨CommitKind.markCompleted, { j1 with status := BatchJobStatus.COMPLETED }, assocs⟩]
  | job, assocs, batch_ids :: rest, k, processed =>
      if cancelObs k then []
      else
        match fails k with
        | some msg =>
            [⟨CommitKind.markFailed,
              { job with status := BatchJobStatus.FAILED, error_message := some msg },
              assocs⟩]
        | none =>
            let res := applyChunk job assocs batch_ids
            let processed' := processed + batch_ids.length
            let j' : BatchJob := { job with processed_count := processed' }
            (if res.2 then [⟨CommitKind.assocWrite, job, res.1⟩] else []) ++
              ⟨CommitKind.chunkProgress, j', res.1⟩ ::
                runChunks cancelObs fails j' res.1 rest (k + 1) processed'

/-- The background task `process_batch_job` of lines 40-145, as the ordered
list of states it commits. A job already CANCELLED on pickup is abandoned with
no commit (lines 56-58); otherwise the IN_PROGRESS write of line 61 is
committed and the chunk loop runs over the slices of the identifier list. The
job record and association rows stand in for the session opened on `db_url`;
the not-found early return of line 52 is the caller's concern (the record the
submitter just committed is handed over directly). -/
def process_batch_job (cancelObs : Nat → Bool) (fails : Nat → Option String)
    (job : BatchJob) (assocs : List CompanyCollectionAssociation) :
    List CommittedWrite :=
  if job.status = BatchJobStatus.CANCELLED then []
  else
    let j1 : BatchJob := { job with status := BatchJobStatus.IN_PROGRESS }
    let company_ids := job.company_ids_json
    let batch_size := batch_size_for company_ids.length
    ⟨CommitKind.markInProgress, j1, assocs⟩ ::
      runChunks cancelObs fails j1 assocs (chunksOf batch_size company_ids) 0 0

/-! ### Routes: submission and cancellation -/

/-- Modelled from the spec: the row defaults of the `BatchJob` ORM model live
in `backend/db/database.py`, which is not part of the provided sources; per
spec §4.2 a freshly created job row has status PENDING and processed_count 0.
All other fields are exactly the keyword arguments of lines 169-175. -/
def newAddJob (request : BatchAddRequest) : BatchJob :=
  { job_type := BatchJobType.ADD
    source_collection_id := request.source_collection_id
    target_collection_id := some request.target_collection_id
    company_ids_json := request.company_ids
    total_count := request.company_ids.length
    processed_count := 0
    status := BatchJobStatus.PENDING
    error_message := none }

/-- POST /batch/add-companies (`create_batch_add_job`, lines 148-197): look up
both referenced collections, raise 404 when either is missing, otherwise
insert the new job row (keyed by the fresh id `newId`) and return it. The
dispatch of the background task and the response serialization are outside the
store model. -/
def create_batch_add_job (db : Database) (request : BatchAddRequest)
    (newId : Nat) : Except ApiError (Database × BatchJob) :=
  if request.source_collection_id ∈ db.collections ∧
      request.target_collection_id ∈ db.collections then
    Except.ok
      ({ db with jobs := db.jobs ++ [(newId, newAddJob request)] }, newAddJob request)
  else
    Except.error (ApiError.notFound "Collection not found")

/-- The query of line 231: first job record stored under this id. -/
def lookupJob (db : Database) (job_id : Nat) : Option BatchJob :=
  (db.jobs.find? fun p => decide (p.1 = job_id)).map Prod.snd

/-- Replace the record stored under `job_id`; the commit of line 240. -/
def updateJob (db : Database) (job_id : Nat) (job : BatchJob) : Database :=
  { db with jobs := db.jobs.map fun p => if p.1 = job_id then (p.1, job) else p }

/-- POST /batch/jobs/{job_id}/cancel (`cancel_batch_job`, lines 224-242):
404 when the id is unknown, 400 when the job is already COMPLETED, FAILED or
CANCELLED, otherwise set status CANCELLED, commit, and acknowledge. -/
def cancel_batch_job (db : Database) (job_id : Nat) :
    Except ApiError (Database × String) :=
  match lookupJob db job_id with
  | none => Except.error (ApiError.notFound "Job not found")
  | some job =>
      if job.status = BatchJobStatus.COMPLETED ∨ job.status = BatchJobStatus.FAILED ∨
          job.status = BatchJobStatus.CANCELLED then
        Except.error (ApiError.badRequest "Job cannot be cancelled in current status")
      else
        Except.ok (updateJob db job_id { job with status := BatchJobStatus.CANCELLED },
          "Job cancelled successfully")

/-! ### Observations over committed traces -/

/-- The `processed_count` values of a committed trace, in commit order. -/
def committedCounts (tr : List CommittedWrite) : List Nat :=
  tr.map fun w => w.job.processed_count

/-- The `processed_count` values written by the per-chunk progress commits of
line 128, in order. -/
def chunkProgressCounts (tr : List CommittedWrite) : List Nat :=
  (tr.filter fun w => decide (w.kind = CommitKind.chunkProgress)).map
    fun w => w.job.processed_count

/-- Total number of items covered by a chunk list. -/
def sumLens (chunks : List (List Int)) : Nat :=
  (chunks.map List.length).sum

/-- Running totals `acc + c₁, acc + c₁ + c₂, ...` of a list of chunk sizes. -/
def prefixSums (acc : Nat) : List Nat → List Nat
  | [] => []
  | n :: rest => (acc + n) :: prefixSums (acc + n) rest

/-- Lengths of the slices produced by `chunksOfAux`, as a function of the
length of the sliced list only. -/
def chunkLensAux (batch_size : Nat) : Nat → Nat → List Nat
  | 0, _ => []
  | _ + 1, 0 => []
  | fuel + 1, m + 1 =>
      (1 + min (batch_size - 1) m) :: chunkLensAux batch_size fuel (m - (batch_size - 1))

/-! ### Helper lemmas about chunking -/

theorem sumLens_cons (c : List Int) (rest : List (List Int)) :
    sumLens (c :: rest) = c.length + sumLens rest := by
  simp [sumLens]

theorem sumLens_chunksOfAux (batch_size : Nat) :
    ∀ (fuel : Nat) (l : List Int), l.length ≤ fuel →
      sumLens (chunksOfAux batch_size fuel l) = l.length := by
  intro fuel
  induction fuel with
  | zero =>
      intro l hl
      have hnil : l = [] := List.length_eq_zero.mp (Nat.le_zero.mp hl)
      subst hnil
      simp [chunksOfAux, sumLens]
  | succ n ih =>
      intro l hl
      match l with
      | [] => simp [chunksOfAux, sumLens]
      | a :: rest =>
          have hr : (rest.drop (batch_size - 1)).length ≤ n := by
            rw [List.length_drop]
            simp only [List.length_cons] at hl
            omega
          rw [chunksOfAux, sumLens_cons, ih _ hr]
          simp [List.length_take, List.length_drop]
          omega

/-- Every slice covers exactly the whole list: the chunk lengths add up to the
length of the identifier list. -/
theorem sumLens_chunksOf (batch_size : Nat) (l : List Int) :
    sumLens (chunksOf batch_size l) = l.length :=
  sumLens_chunksOfAux batch_size l.length l le_rfl

theorem mem_of_mem_chunksOfAux (batch_size : Nat) :
    ∀ (fuel : Nat) (l c : List Int), c ∈ chunksOfAux batch_size fuel l →
      ∀ x ∈ c, x ∈ l := by
  intro fuel
  induction fuel with
  | zero => intro l c hc; simp [chunksOfAux] at hc
  | succ n ih =>
      intro l c hc x hx
      match l with
      | [] => simp [chunksOfAux] at hc
      | a :: rest =>
          rw [chunksOfAux] at hc
          rcases List.mem_cons.mp hc with h | h
          · subst h
            rcases List.mem_cons.mp hx with rfl | hx'
            · exact List.mem_cons_self _ _
            · exact List.mem_cons_of_mem _ (List.take_subset _ _ hx')
          · exact List.mem_cons_of_mem _ (List.drop_subset _ _ (ih _ _ h x hx))

theorem mem_of_mem_chunksOf (batch_size : Nat) (l c : List Int)
    (hc : c ∈ chunksOf batch_size l) : ∀ x ∈ c, x ∈ l :=
  mem_of_mem_chunksOfAux batch_size l.length l c hc

theorem map_length_chunksOfAux (batch_size : Nat) :
    ∀ (fuel : Nat) (l : List Int),
      (chunksOfAux batch_size fuel l).map List.length =
        chunkLensAux batch_size fuel l.length := by
  intro fuel
  induction fuel with
  | zero => intro l; simp [chunksOfAux, chunkLensAux]
  | succ n ih =>
      intro l
      match l with
      | [] => simp [chunksOfAux, chunkLensAux]
      | a :: rest =>
          rw [chunksOfAux, List.map_cons, ih]
          simp only [List.length_cons, chunkLensAux, List.length_take, List.length_drop]
          congr 1
          omega

/-- The chunk lengths of a list depend only on its length and the batch size. -/
theorem map_length_chunksOf (batch_size : Nat) (l : List Int) :
    (chunksOf batch_size l).map List.length = chunkLensAux batch_size l.length l.length :=
  map_length_chunksOfAux batch_size l.length l

/-! ### Helper lemmas about the routes -/

theorem find?_map_update (job_id : Nat) (new : BatchJob) :
    ∀ l : List (Nat × BatchJob),
      (l.find? fun p => decide (p.1 = job_id)).isSome = true →
      ((l.map fun p => if p.1 = job_id then (p.1, new) else p).find? fun p =>
          decide (p.1 = job_id)) = some (job_id, new) := by
  intro l
  induction l with
  | nil => simp
  | cons hd tl ih =>
      intro hs
      by_cases h : hd.1 = job_id
      · simp [List.find?_cons, h]
      · rw [List.find?_cons_of_neg _ (by simp [h])] at hs
        simp only [List.map_cons, if_neg h]
        rw [List.find?_cons_of_neg _ (by simp [h])]
        exact ih hs

theorem mem_of_mem_update (job_id : Nat) (new : BatchJob)
    (l : List (Nat × BatchJob)) (p : Nat × BatchJob)
    (hp : p ∈ l.map fun q => if q.1 = job_id then (q.1, new) else q)
    (hne : p.1 ≠ job_id) : p ∈ l := by
  rcases List.mem_map.mp hp with ⟨q, hq, hpq⟩
  by_cases h : q.1 = job_id
  · rw [if_pos h] at hpq
    exact absurd (by rw [← hpq]; exact h) hne
  · rw [if_neg h] at hpq
    exact hpq ▸ hq

/-! ### Helper lemmas about the executor trace -/

theorem runChunks_cons_none (cancelObs : Nat → Bool) (fails : Nat → Option String)
    (job : BatchJob) (assocs : List CompanyCollectionAssociation)
    (batch_ids : List Int) (rest : List (List Int)) (k processed : Nat)
    (hcan : cancelObs k = false) (hfk : fails k = none) :
    runChunks cancelObs fails job assocs (batch_ids :: rest) k processed =
      (if (applyChunk job assocs batch_ids).2 then
        [⟨CommitKind.assocWrite, job, (applyChunk job assocs batch_ids).1⟩]
      else []) ++
      ⟨CommitKind.chunkProgress,
        { job with processed_count := processed + batch_ids.length },
        (applyChunk job assocs batch_ids).1⟩ ::
      runChunks cancelObs fails
        { job with processed_count := processed + batch_ids.length }
        (applyChunk job assocs batch_ids).1 rest (k + 1)
        (processed + batch_ids.length) := by
  rw [runChunks]
  simp [hcan, hfk]

theorem runChunks_cons_none_true (cancelObs : Nat → Bool) (fails : Nat → Option String)
    (job : BatchJob) (assocs : List CompanyCollectionAssociation)
    (batch_ids : List Int) (rest : List (List Int)) (k processed : Nat)
    (hcan : cancelObs k = false) (hfk : fails k = none)
    (hr : (applyChunk job assocs batch_ids).2 = true) :
    runChunks cancelObs fails job assocs (batch_ids :: rest) k processed =
      ⟨CommitKind.assocWrite, job, (applyChunk job assocs batch_ids).1⟩ ::
      ⟨CommitKind.chunkProgress,
        { job with processed_count := processed + batch_ids.length },
        (applyChunk job assocs batch_ids).1⟩ ::
      runChunks cancelObs fails
        { job with processed_count := processed + batch_ids.length }
        (applyChunk job assocs batch_ids).1 rest (k + 1)
        (processed + batch_ids.length) := by
  rw [runChunks_cons_none cancelObs fails job assocs batch_ids rest k processed hcan hfk,
    hr]
  rfl

theorem runChunks_cons_none_false (cancelObs : Nat → Bool) (fails : Nat → Option String)
    (job : BatchJob) (assocs : List CompanyCollectionAssociation)
    (batch_ids : List Int) (rest : List (List Int)) (k processed : Nat)
    (hcan : cancelObs k = false) (hfk : fails k = none)
    (hr : (applyChunk job assocs batch_ids).2 = false) :
    runChunks cancelObs fails job assocs (batch_ids :: rest) k processed =
      ⟨CommitKind.chunkProgress,
        { job with processed_count := processed + batch_ids.length },
        (applyChunk job assocs batch_ids).1⟩ ::
      runChunks cancelObs fails
        { job with processed_count := processed + batch_ids.length }
        (applyChunk job assocs batch_ids).1 rest (k + 1)
        (processed + batch_ids.length) := by
  rw [runChunks_cons_none cancelObs fails job assocs batch_ids rest k processed hcan hfk,
    hr]
  rfl

theorem process_batch_job_eq (cancelObs : Nat → Bool) (fails : Nat → Option String)
    (job : BatchJob) (assocs : List CompanyCollectionAssociation)
    (hst : job.status ≠ BatchJobStatus.CANCELLED) :
    process_batch_job cancelObs fails job assocs =
      ⟨CommitKind.markInProgress, { job with status := BatchJobStatus.IN_PROGRESS },
        assocs⟩ ::
      runChunks cancelObs fails { job with status := BatchJobStatus.IN_PROGRESS } assocs
        (chunksOf (batch_size_for job.company_ids_json.length) job.company_ids_json)
        0 0 := by
  simp [process_batch_job, hst]

theorem runChunks_counts (cancelObs : Nat → Bool) (fails : Nat → Option String) :
    ∀ (chunks : List (List Int)) (job : BatchJob)
      (assocs : List CompanyCollectionAssociation) (k processed : Nat),
      job.processed_count = processed →
      List.Chain' (· ≤ ·)
        (processed ::
          committedCounts (runChunks cancelObs fails job assocs chunks k processed)) ∧
      ∀ c ∈ committedCounts (runChunks cancelObs fails job assocs chunks k processed),
        c ≤ processed + sumLens chunks := by
  intro chunks
  induction chunks with
  | nil =>
      intro job assocs k processed hj
      refine ⟨?_, ?_⟩
      · simp [runChunks, committedCounts]
      · intro c hcc
        simp [runChunks, committedCounts] at hcc
        simp only [sumLens, List.map_nil, List.sum_nil]
        omega
  | cons batch_ids rest ih =>
      intro job assocs k processed hj
      subst hj
      cases hcan : cancelObs k with
      | true =>
          refine ⟨?_, ?_⟩
          · simp [runChunks, hcan, committedCounts]
          · intro c hcc
            simp [runChunks, hcan, committedCounts] at hcc
      | false =>
          cases hfk : fails k with
          | some msg =>
              refine ⟨?_, ?_⟩
              · simp [runChunks, hcan, hfk, committedCounts]
              · intro c hcc
                simp [runChunks, hcan, hfk, committedCounts] at hcc
                rw [sumLens_cons]
                omega
          | none =>
              obtain ⟨ihchain, ihbound⟩ := ih
                { job with processed_count := job.processed_count + batch_ids.length }
                (applyChunk job assocs batch_ids).1 (k + 1)
                (job.processed_count + batch_ids.length) rfl
              cases hr : (applyChunk job assocs batch_ids).2 with
              | true =>
                  rw [runChunks_cons_none_true cancelObs fails job assocs batch_ids rest
                    k job.processed_count hcan hfk hr]
                  refine ⟨?_, ?_⟩
                  · simp only [committedCounts, List.map_cons] at ihchain ⊢
                    rw [List.chain'_cons, List.chain'_cons]
                    exact ⟨le_refl _, Nat.le_add_right _ _, ihchain⟩
                  · intro c hcc
                    simp only [committedCounts, List.map_cons, List.mem_cons] at hcc
                    rw [sumLens_cons]
                    rcases hcc with h | h | h
                    · omega
                    · omega
                    · have := ihbound c (by simpa [committedCounts] using h)
                      omega
              | false =>
                  rw [runChunks_cons_none_false cancelObs fails job assocs batch_ids rest
                    k job.processed_count hcan hfk hr]
                  refine ⟨?_, ?_⟩
                  · simp only [committedCounts, List.map_cons] at ihchain ⊢
                    rw [List.chain'_cons]
                    exact ⟨Nat.le_add_right _ _, ihchain⟩
                  · intro c hcc
                    simp only [committedCounts, List.map_cons, List.mem_cons] at hcc
                    rw [sumLens_cons]
                    rcases hcc with h | h
                    · omega
                    · have := ihbound c (by simpa [committedCounts] using h)
                      omega

/-! ### Claims -/

/-- C2: over the whole sequence of states the executor commits, prefixed with
the job's creation-time value, processed_count is non-decreasing; it starts at
0, and every committed state satisfies processed_count ≤ total_count (the
lower bound 0 ≤ processed_count holds because the count is a natural number).
This holds for every cancellation and failure oracle. -/
theorem C2_processed_count_invariant (cancelObs : Nat → Bool)
    (fails : Nat → Option String) (job : BatchJob)
    (assocs : List CompanyCollectionAssociation)
    (h0 : job.processed_count = 0)
    (ht : job.total_count = job.company_ids_json.length) :
    List.Chain' (· ≤ ·)
      (job.processed_count ::
        committedCounts (process_batch_job cancelObs fails job assocs)) ∧
    job.processed_count = 0 ∧
    ∀ c ∈ committedCounts (process_batch_job cancelObs fails job assocs),
      c ≤ job.total_count := by
  by_cases hcs : job.status = BatchJobStatus.CANCELLED
  · simp [process_batch_job, hcs, committedCounts, h0]
  · obtain ⟨hchain, hbound⟩ := runChunks_counts cancelObs fails
      (chunksOf (batch_size_for job.company_ids_json.length) job.company_ids_json)
      { job with status := BatchJobStatus.IN_PROGRESS } assocs 0 0 h0
    rw [process_batch_job_eq cancelObs fails job assocs hcs]
    refine ⟨?_, h0, ?_⟩
    · simp only [committedCounts, List.map_cons]
      rw [List.chain'_cons]
      exact ⟨le_refl _, h0 ▸ hchain⟩
    · intro c hcc
      simp only [committedCounts, List.map_cons, List.mem_cons] at hcc
      rcases hcc with h | h
      · rw [h]
        exact h0.le.trans (Nat.zero_le _)
      · have := hbound c (by simpa [committedCounts] using h)
        rw [sumLens_chunksOf] at this
        omega

/-- With no cancellation observed and no failing chunk, the last committed
state of the chunk loop is the COMPLETED write, carrying a processed_count
equal to the starting accumulator plus the total size of all chunks. -/
theorem runChunks_last (cancelObs : Nat → Bool) (fails : Nat → Option String)
    (hcan : ∀ i, cancelObs i = false) (hfl : ∀ i, fails i = none) :
    ∀ (chunks : List (List Int)) (job : BatchJob)
      (assocs : List CompanyCollectionAssociation) (k processed : Nat),
      ∃ w : CommittedWrite,
        (runChunks cancelObs fails job assocs chunks k processed).getLast? = some w ∧
        w.kind = CommitKind.markCompleted ∧
        w.job.status = BatchJobStatus.COMPLETED ∧
        w.job.processed_count = processed + sumLens chunks := by
  intro chunks
  induction chunks with
  | nil =>
      intro job assocs k processed
      refine ⟨⟨CommitKind.markCompleted,
        { job with processed_count := processed, status := BatchJobStatus.COMPLETED },
        assocs⟩, ?_, rfl, rfl, ?_⟩
      · simp [runChunks]
      · simp [sumLens]
  | cons batch_ids rest ih =>
      intro job assocs k processed
      obtain ⟨w, hlast, hkind, hstat, hcount⟩ := ih
        { job with processed_count := processed + batch_ids.length }
        (applyChunk job assocs batch_ids).1 (k + 1) (processed + batch_ids.length)
      refine ⟨w, ?_, hkind, hstat, ?_⟩
      · rw [runChunks_cons_none cancelObs fails job assocs batch_ids rest k processed
          (hcan k) (hfl k)]
        rcases hrec : runChunks cancelObs fails
            { job with processed_count := processed + batch_ids.length }
            (applyChunk job assocs batch_ids).1 rest (k + 1)
            (processed + batch_ids.length) with _ | ⟨r, rs⟩
        · rw [hrec] at hlast
          simp at hlast
        · rw [hrec] at hlast
          rw [List.getLast?_append, List.getLast?_cons_cons, hlast]
          simp
      · rw [hcount, sumLens_cons]
        omega

/-- With no cancellation observed, no failing chunk and a job not CANCELLED on
pickup, the executor's last committed state is the COMPLETED write with
processed_count equal to the length of the identifier list. -/
theorem process_batch_job_last (cancelObs : Nat → Bool) (fails : Nat → Option String)
    (job : BatchJob) (assocs : List CompanyCollectionAssociation)
    (hcan : ∀ i, cancelObs i = false) (hfl : ∀ i, fails i = none)
    (hst : job.status ≠ BatchJobStatus.CANCELLED) :
    ∃ w : CommittedWrite,
      (process_batch_job cancelObs fails job assocs).getLast? = some w ∧
      w.kind = CommitKind.markCompleted ∧
      w.job.status = BatchJobStatus.COMPLETED ∧
      w.job.processed_count = job.company_ids_json.length := by
  obtain ⟨w, hlast, hkind, hstat, hcount⟩ := runChunks_last cancelObs fails hcan hfl
    (chunksOf (batch_size_for job.company_ids_json.length) job.company_ids_json)
    { job with status := BatchJobStatus.IN_PROGRESS } assocs 0 0
  refine ⟨w, ?_, hkind, hstat, ?_⟩
  · rw [process_batch_job_eq cancelObs fails job assocs hst]
    rcases hrec : runChunks cancelObs fails
        { job with status := BatchJobStatus.IN_PROGRESS } assocs
        (chunksOf (batch_size_for job.company_ids_json.length) job.company_ids_json)
        0 0 with _ | ⟨r, rs⟩
    · rw [hrec] at hlast
      simp at hlast
    · rw [hrec] at hlast
      rw [List.getLast?_cons_cons, hlast]
  · rw [hcount, sumLens_chunksOf]
    omega

theorem chunkProgressCounts_cons_of_ne (w : CommittedWrite)
    (tr : List CommittedWrite) (h : w.kind ≠ CommitKind.chunkProgress) :
    chunkProgressCounts (w :: tr) = chunkProgressCounts tr := by
  simp [chunkProgressCounts, List.filter_cons, h]

theorem chunkProgressCounts_cons_progress (j : BatchJob)
    (a' : List CompanyCollectionAssociation) (tr : List CommittedWrite) :
    chunkProgressCounts (⟨CommitKind.chunkProgress, j, a'⟩ :: tr) =
      j.processed_count :: chunkProgressCounts tr := by
  simp [chunkProgressCounts, List.filter_cons]

/-- With no cancellation observed and no failing chunk, the per-chunk progress
commits of the loop write exactly the running totals of the chunk lengths. -/
theorem runChunks_progress (cancelObs : Nat → Bool) (fails : Nat → Option String)
    (hcan : ∀ i, cancelObs i = false) (hfl : ∀ i, fails i = none) :
    ∀ (chunks : List (List Int)) (job : BatchJob)
      (assocs : List CompanyCollectionAssociation) (k processed : Nat),
      chunkProgressCounts (runChunks cancelObs fails job assocs chunks k processed) =
        prefixSums processed (chunks.map List.length) := by
  intro chunks
  induction chunks with
  | nil =>
      intro job assocs k processed
      simp [runChunks, chunkProgressCounts, prefixSums]
  | cons batch_ids rest ih =>
      intro job assocs k processed
      cases hr : (applyChunk job assocs batch_ids).2 with
      | true =>
          rw [runChunks_cons_none_true cancelObs fails job assocs batch_ids rest k
            processed (hcan k) (hfl k) hr]
          rw [chunkProgressCounts_cons_of_ne _ _ (by simp),
            chunkProgressCounts_cons_progress, ih]
          simp [prefixSums]
      | false =>
          rw [runChunks_cons_none_false cancelObs fails job assocs batch_ids rest k
            processed (hcan k) (hfl k) hr]
          rw [chunkProgressCounts_cons_progress, ih]
          simp [prefixSums]

set_option maxRecDepth 8000 in
/-- C3: the executor uses chunk size 1 when the item count is at most 100 and
chunk size 5 otherwise; consequently, with no cancellation and no failure, a
job with 50 identifiers commits the per-chunk progress sequence 1, 2, ..., 50
and a job with 250 identifiers commits 5, 10, ..., 250 (the sequence of
line-128 progress writes; line 131 then re-commits the unchanged final value
before the COMPLETED write). -/
theorem C3_chunk_sizing :
    (∀ n : Nat, (n ≤ 100 → batch_size_for n = 1) ∧ (100 < n → batch_size_for n = 5)) ∧
    (∀ (cancelObs : Nat → Bool) (fails : Nat → Option String) (job : BatchJob)
        (assocs : List CompanyCollectionAssociation),
      (∀ i, cancelObs i = false) → (∀ i, fails i = none) →
      job.status ≠ BatchJobStatus.CANCELLED →
      (job.company_ids_json.length = 50 →
        chunkProgressCounts (process_batch_job cancelObs fails job assocs) =
          List.range' 1 50 1) ∧
      (job.company_ids_json.length = 250 →
        chunkProgressCounts (process_batch_job cancelObs fails job assocs) =
          List.range' 5 50 5)) := by
  constructor
  · intro n
    constructor <;> intro h <;> simp [batch_size_for] <;> omega
  · intro cancelObs fails job assocs hcan hfl hst
    have hkey : ∀ m : Nat, job.company_ids_json.length = m →
        chunkProgressCounts (process_batch_job cancelObs fails job assocs) =
          prefixSums 0 (chunkLensAux (batch_size_for m) m m) := by
      intro m hm
      rw [process_batch_job_eq cancelObs fails job assocs hst,
        chunkProgressCounts_cons_of_ne _ _ (by simp),
        runChunks_progress cancelObs fails hcan hfl,
        map_length_chunksOf, hm]
    constructor
    · intro h50
      rw [hkey 50 h50]
      decide
    · intro h250
      rw [hkey 250 h250]
      decide

set_option maxRecDepth 8000 in
/-- Witness for C3_chunk_sizing: the chunk sizes at 50 and 250 items, and the
progress sequences of concrete 50- and 250-item jobs. -/
theorem C3_chunk_sizing_witness :
    batch_size_for 50 = 1 ∧ batch_size_for 250 = 5 ∧
    chunkProgressCounts (process_batch_job (fun _ => false) (fun _ => none)
        (BatchJob.mk BatchJobType.ADD 1 (some 2) (List.replicate 50 0) 50 0
          BatchJobStatus.PENDING none) []) = List.range' 1 50 1 ∧
    chunkProgressCounts (process_batch_job (fun _ => false) (fun _ => none)
        (BatchJob.mk BatchJobType.DELETE 1 none (List.replicate 250 0) 250 0
          BatchJobStatus.PENDING none) []) = List.range' 5 50 5 :=
  ⟨(C3_chunk_sizing.1 50).1 (by decide), (C3_chunk_sizing.1 250).2 (by decide),
   (C3_chunk_sizing.2 (fun _ => false) (fun _ => none)
      (BatchJob.mk BatchJobType.ADD 1 (some 2) (List.replicate 50 0) 50 0
        BatchJobStatus.PENDING none) [] (fun _ => rfl) (fun _ => rfl)
      (by decide)).1 (by decide),
   (C3_chunk_sizing.2 (fun _ => false) (fun _ => none)
      (BatchJob.mk BatchJobType.DELETE 1 none (List.replicate 250 0) 250 0
        BatchJobStatus.PENDING none) [] (fun _ => rfl) (fun _ => rfl)
      (by decide)).2 (by decide)⟩

/-- C4: if the executor runs all chunks without observing cancellation and
without a chunk failure (and the job was not already CANCELLED on pickup),
the final committed state has status COMPLETED and
processed_count = total_count. -/
theorem C4_normal_completion (cancelObs : Nat → Bool) (fails : Nat → Option String)
    (job : BatchJob) (assocs : List CompanyCollectionAssociation)
    (hcan : ∀ i, cancelObs i = false) (hfl : ∀ i, fails i = none)
    (hst : job.status ≠ BatchJobStatus.CANCELLED)
    (ht : job.total_count = job.company_ids_json.length) :
    ∃ w : CommittedWrite,
      (process_batch_job cancelObs fails job assocs).getLast? = some w ∧
      w.kind = CommitKind.markCompleted ∧
      w.job.status = BatchJobStatus.COMPLETED ∧
      w.job.processed_count = job.total_count := by
  obtain ⟨w, hlast, hkind, hstat, hcount⟩ :=
    process_batch_job_last cancelObs fails job assocs hcan hfl hst
  exact ⟨w, hlast, hkind, hstat, by rw [hcount, ht]⟩

/-- Witness for C4_normal_completion on a concrete three-item ADD job. -/
theorem C4_normal_completion_witness :
    ∃ w : CommittedWrite,
      (process_batch_job (fun _ => false) (fun _ => none)
        (BatchJob.mk BatchJobType.ADD 1 (some 2) [5, 6, 7] 3 0
          BatchJobStatus.PENDING none) []).getLast? = some w ∧
      w.kind = CommitKind.markCompleted ∧
      w.job.status = BatchJobStatus.COMPLETED ∧
      w.job.processed_count =
        (BatchJob.mk BatchJobType.ADD 1 (some 2) [5, 6, 7] 3 0
          BatchJobStatus.PENDING none).total_count :=
  C4_normal_completion (fun _ => false) (fun _ => none)
    (BatchJob.mk BatchJobType.ADD 1 (some 2) [5, 6, 7] 3 0 BatchJobStatus.PENDING none)
    [] (fun _ => rfl) (fun _ => rfl) (by decide) rfl

/-- Witness for C2_processed_count_invariant on a concrete two-item DELETE
job with no cancellation and no failure. -/
theorem C2_processed_count_invariant_witness :
    List.Chain' (· ≤ ·)
      ((BatchJob.mk BatchJobType.DELETE 3 none [7, 8] 2 0
          BatchJobStatus.PENDING none).processed_count ::
        committedCounts (process_batch_job (fun _ => false) (fun _ => none)
          (BatchJob.mk BatchJobType.DELETE 3 none [7, 8] 2 0
            BatchJobStatus.PENDING none) [])) ∧
    (BatchJob.mk BatchJobType.DELETE 3 none [7, 8] 2 0
      BatchJobStatus.PENDING none).processed_count = 0 ∧
    ∀ c ∈ committedCounts (process_batch_job (fun _ => false) (fun _ => none)
        (BatchJob.mk BatchJobType.DELETE 3 none [7, 8] 2 0
          BatchJobStatus.PENDING none) []),
      c ≤ (BatchJob.mk BatchJobType.DELETE 3 none [7, 8] 2 0
        BatchJobStatus.PENDING none).total_count :=
  C2_processed_count_invariant (fun _ => false) (fun _ => none)
    (BatchJob.mk BatchJobType.DELETE 3 none [7, 8] 2 0 BatchJobStatus.PENDING none)
    [] rfl rfl

/-- C1 counterexample: the claim says an ADD submission with equal source and
target collection ids fails synchronously with a validation error and creates
no job record. On the code this is false: `create_batch_add_job` validates
only that both referenced collections exist (lines 157-166) and never compares
them, so with one existing collection 1 and a request whose source and target
are both 1, the submission succeeds and a job record is stored. -/
theorem C1_counterexample :
    (BatchAddRequest.mk 1 1 [10]).source_collection_id =
        (BatchAddRequest.mk 1 1 [10]).target_collection_id ∧
    create_batch_add_job (Database.mk [1] [] []) (BatchAddRequest.mk 1 1 [10]) 7 =
      Except.ok
        (Database.mk [1] [(7, newAddJob (BatchAddRequest.mk 1 1 [10]))] [],
         newAddJob (BatchAddRequest.mk 1 1 [10])) := by
  exact ⟨rfl, rfl⟩

/-- C1 (amended): an ADD submission whose source collection id equals its
target collection id is not rejected: whenever that collection exists, the
submission succeeds and a job record is appended to the store — the code
performs no equal-source/target validation, so a synchronous failure happens
only when a referenced collection is missing. -/
theorem C1_equal_ids_accepted (db : Database) (request : BatchAddRequest)
    (newId : Nat)
    (heq : request.source_collection_id = request.target_collection_id)
    (hmem : request.source_collection_id ∈ db.collections) :
    create_batch_add_job db request newId =
      Except.ok
        ({ db with jobs := db.jobs ++ [(newId, newAddJob request)] }, newAddJob request) := by
  unfold create_batch_add_job
  rw [if_pos ⟨hmem, heq ▸ hmem⟩]

/-- Witness for C1_equal_ids_accepted at a concrete store and request. -/
theorem C1_equal_ids_accepted_witness :
    create_batch_add_job (Database.mk [4] [] []) (BatchAddRequest.mk 4 4 [1, 2]) 0 =
      Except.ok
        (Database.mk [4] [(0, newAddJob (BatchAddRequest.mk 4 4 [1, 2]))] [],
         newAddJob (BatchAddRequest.mk 4 4 [1, 2])) :=
  C1_equal_ids_accepted (Database.mk [4] [] []) (BatchAddRequest.mk 4 4 [1, 2]) 0
    rfl (by decide)

/-- C5: a cancellation request against a job already in a terminal state
(COMPLETED, FAILED or CANCELLED) fails with the 400 conflict error, and a
request against an unknown job id fails with the 404 NotFound error. In both
cases `cancel_batch_job` returns an error and produces no updated store, so
no field of any job record is mutated. -/
theorem C5_cancel_terminal_conflict (db : Database) (job_id : Nat) :
    (∀ job : BatchJob, lookupJob db job_id = some job →
      (job.status = BatchJobStatus.COMPLETED ∨ job.status = BatchJobStatus.FAILED ∨
        job.status = BatchJobStatus.CANCELLED) →
      cancel_batch_job db job_id =
        Except.error (ApiError.badRequest "Job cannot be cancelled in current status")) ∧
    (lookupJob db job_id = none →
      cancel_batch_job db job_id = Except.error (ApiError.notFound "Job not found")) := by
  constructor
  · intro job hfound hterm
    simp [cancel_batch_job, hfound, hterm]
  · intro hnone
    simp [cancel_batch_job, hnone]

/-- Witness for C5_cancel_terminal_conflict: a store holding one COMPLETED job
under id 3; cancelling id 3 conflicts, cancelling the unknown id 9 is 404. -/
theorem C5_cancel_terminal_conflict_witness :
    cancel_batch_job
        (Database.mk [1, 2]
          [(3, BatchJob.mk BatchJobType.ADD 1 (some 2) [5] 1 1
                BatchJobStatus.COMPLETED none)] []) 3 =
      Except.error (ApiError.badRequest "Job cannot be cancelled in current status") ∧
    cancel_batch_job
        (Database.mk [1, 2]
          [(3, BatchJob.mk BatchJobType.ADD 1 (some 2) [5] 1 1
                BatchJobStatus.COMPLETED none)] []) 9 =
      Except.error (ApiError.notFound "Job not found") :=
  ⟨(C5_cancel_terminal_conflict
      (Database.mk [1, 2]
        [(3, BatchJob.mk BatchJobType.ADD 1 (some 2) [5] 1 1
              BatchJobStatus.COMPLETED none)] []) 3).1
      (BatchJob.mk BatchJobType.ADD 1 (some 2) [5] 1 1 BatchJobStatus.COMPLETED none)
      (by decide) (Or.inl rfl),
   (C5_cancel_terminal_conflict
      (Database.mk [1, 2]
        [(3, BatchJob.mk BatchJobType.ADD 1 (some 2) [5] 1 1
              BatchJobStatus.COMPLETED none)] []) 9).2 (by decide)⟩

/-- C6: a job whose status is already CANCELLED when the executor picks it up
is abandoned with an empty committed trace — the status is never set to
IN_PROGRESS, no association is touched and processed_count is never written
(lines 56-58 return before any commit). -/
theorem C6_cancelled_on_pickup (cancelObs : Nat → Bool) (fails : Nat → Option String)
    (job : BatchJob) (assocs : List CompanyCollectionAssociation)
    (h : job.status = BatchJobStatus.CANCELLED) :
    process_batch_job cancelObs fails job assocs = [] := by
  simp [process_batch_job, h]

/-- Witness for C6_cancelled_on_pickup on a concrete CANCELLED job. -/
theorem C6_cancelled_on_pickup_witness :
    process_batch_job (fun _ => false) (fun _ => none)
      (BatchJob.mk BatchJobType.ADD 1 (some 2) [5, 6] 2 0
        BatchJobStatus.CANCELLED none) [] = [] :=
  C6_cancelled_on_pickup (fun _ => false) (fun _ => none)
    (BatchJob.mk BatchJobType.ADD 1 (some 2) [5, 6] 2 0 BatchJobStatus.CANCELLED none)
    [] rfl

/-- C7: the moment the status re-read at a chunk boundary observes CANCELLED,
the executor stops with no further commit at all (lines 82-85): the remaining
committed trace is empty, so no association is mutated, the status is never
overwritten, processed_count keeps its last committed value and no
error_message is recorded. -/
theorem C7_stop_on_observed_cancel (cancelObs : Nat → Bool)
    (fails : Nat → Option String) (job : BatchJob)
    (assocs : List CompanyCollectionAssociation) (batch_ids : List Int)
    (rest : List (List Int)) (k processed : Nat) (h : cancelObs k = true) :
    runChunks cancelObs fails job assocs (batch_ids :: rest) k processed = [] := by
  simp [runChunks, h]

/-- Witness for C7_stop_on_observed_cancel with cancellation observed at the
first chunk boundary. -/
theorem C7_stop_on_observed_cancel_witness :
    runChunks (fun _ => true) (fun _ => none)
      (BatchJob.mk BatchJobType.ADD 1 (some 2) [5] 1 0
        BatchJobStatus.IN_PROGRESS none) [] [[5]] 0 0 = [] :=
  C7_stop_on_observed_cancel (fun _ => true) (fun _ => none)
    (BatchJob.mk BatchJobType.ADD 1 (some 2) [5] 1 0 BatchJobStatus.IN_PROGRESS none)
    [] [5] [] 0 0 rfl

/-- C8: when processing a chunk raises a failure (and cancellation was not
observed at that boundary), the loop stops and exactly one further state is
committed: status FAILED with error_message set to the failure's description,
the association rows untouched by the failing chunk, and processed_count still
equal to the value last committed before the failing chunk. -/
theorem C8_chunk_failure (cancelObs : Nat → Bool) (fails : Nat → Option String)
    (job : BatchJob) (assocs : List CompanyCollectionAssociation)
    (batch_ids : List Int) (rest : List (List Int)) (k processed : Nat)
    (msg : String) (hc : cancelObs k = false) (hf : fails k = some msg)
    (hj : job.processed_count = processed) :
    runChunks cancelObs fails job assocs (batch_ids :: rest) k processed =
      [⟨CommitKind.markFailed,
        { job with status := BatchJobStatus.FAILED, error_message := some msg },
        assocs⟩] ∧
    ({ job with
        status := BatchJobStatus.FAILED
        error_message := some msg } : BatchJob).processed_count = processed := by
  refine ⟨?_, hj⟩
  simp [runChunks, hc, hf]

/-- Witness for C8_chunk_failure: the first chunk of a two-chunk job fails. -/
theorem C8_chunk_failure_witness :
    runChunks (fun _ => false) (fun _ => some "division by zero")
        (BatchJob.mk BatchJobType.ADD 1 (some 2) [5, 6] 2 0
          BatchJobStatus.IN_PROGRESS none) [] [[5], [6]] 0 0 =
      [⟨CommitKind.markFailed,
        BatchJob.mk BatchJobType.ADD 1 (some 2) [5, 6] 2 0
          BatchJobStatus.FAILED (some "division by zero"), []⟩] ∧
    (BatchJob.mk BatchJobType.ADD 1 (some 2) [5, 6] 2 0
      BatchJobStatus.FAILED (some "division by zero")).processed_count = 0 :=
  C8_chunk_failure (fun _ => false) (fun _ => some "division by zero")
    (BatchJob.mk BatchJobType.ADD 1 (some 2) [5, 6] 2 0 BatchJobStatus.IN_PROGRESS none)
    [] [5] [[6]] 0 0 "division by zero" rfl rfl rfl

/-- In an ADD job whose chunk ids all already have an (id, target)
association row, no chunk stages anything for insertion: every committed
state of the loop carries the association rows unchanged. -/
theorem runChunks_assocs_const (cancelObs : Nat → Bool) (fails : Nat → Option String) :
    ∀ (chunks : List (List Int)) (job : BatchJob)
      (assocs : List CompanyCollectionAssociation) (k processed : Nat),
      job.job_type = BatchJobType.ADD →
      (∀ c ∈ chunks, ∀ x ∈ c, assocExists assocs x job.target_collection_id = true) →
      ∀ w ∈ runChunks cancelObs fails job assocs chunks k processed,
        w.assocs = assocs := by
  intro chunks
  induction chunks with
  | nil =>
      intro job assocs k processed _ _ w hw
      simp [runChunks] at hw
      rcases hw with rfl | rfl <;> rfl
  | cons batch_ids rest ih =>
      intro job assocs k processed hty hall w hw
      have happ : applyChunk job assocs batch_ids = (assocs, false) := by
        unfold applyChunk
        rw [hty]
        have hfilter : batch_ids.filter (fun company_id =>
            !(assocExists assocs company_id job.target_collection_id)) = [] := by
          rw [List.filter_eq_nil_iff]
          intro a ha
          simp [hall batch_ids (List.mem_cons_self _ _) a ha]
        simp [hfilter]
      cases hcan : cancelObs k with
      | true =>
          simp [runChunks, hcan] at hw
      | false =>
          cases hfk : fails k with
          | some msg =>
              simp [runChunks, hcan, hfk] at hw
              rw [hw]
          | none =>
              rw [runChunks_cons_none_false cancelObs fails job assocs batch_ids rest
                k processed hcan hfk (by rw [happ])] at hw
              simp only [happ, List.mem_cons] at hw
              rcases hw with rfl | h
              · rfl
              · exact ih { job with processed_count := processed + batch_ids.length }
                  assocs (k + 1) (processed + batch_ids.length) hty
                  (fun c hc x hx => hall c (List.mem_cons_of_mem _ hc) x hx) w h

/-- C9: an ADD job all of whose identifiers already have an association with
the target collection completes normally — the last committed state is the
COMPLETED write with processed_count = total_count — and every committed
state carries the association rows exactly as they were before the job: no
row is inserted and none removed. -/
theorem C9_add_all_present (cancelObs : Nat → Bool) (fails : Nat → Option String)
    (job : BatchJob) (assocs : List CompanyCollectionAssociation)
    (hcan : ∀ i, cancelObs i = false) (hfl : ∀ i, fails i = none)
    (hty : job.job_type = BatchJobType.ADD)
    (hst : job.status ≠ BatchJobStatus.CANCELLED)
    (ht : job.total_count = job.company_ids_json.length)
    (hall : ∀ x ∈ job.company_ids_json,
      assocExists assocs x job.target_collection_id = true) :
    (∃ w : CommittedWrite,
      (process_batch_job cancelObs fails job assocs).getLast? = some w ∧
      w.kind = CommitKind.markCompleted ∧
      w.job.status = BatchJobStatus.COMPLETED ∧
      w.job.processed_count = job.total_count) ∧
    ∀ w ∈ process_batch_job cancelObs fails job assocs, w.assocs = assocs := by
  constructor
  · obtain ⟨w, hlast, hkind, hstat, hcount⟩ :=
      process_batch_job_last cancelObs fails job assocs hcan hfl hst
    exact ⟨w, hlast, hkind, hstat, by rw [hcount, ht]⟩
  · intro w hw
    rw [process_batch_job_eq cancelObs fails job assocs hst] at hw
    rcases List.mem_cons.mp hw with rfl | h
    · rfl
    · exact runChunks_assocs_const cancelObs fails
        (chunksOf (batch_size_for job.company_ids_json.length) job.company_ids_json)
        { job with status := BatchJobStatus.IN_PROGRESS } assocs 0 0 hty
        (fun c hc x hx => hall x (mem_of_mem_chunksOf _ _ c hc x hx)) w h

/-- Witness for C9_add_all_present: a two-item ADD job whose two ids already
have rows in the target collection. -/
theorem C9_add_all_present_witness :
    (∃ w : CommittedWrite,
      (process_batch_job (fun _ => false) (fun _ => none)
        (BatchJob.mk BatchJobType.ADD 1 (some 2) [1, 2] 2 0
          BatchJobStatus.PENDING none)
        [CompanyCollectionAssociation.mk 1 (some 2),
         CompanyCollectionAssociation.mk 2 (some 2)]).getLast? = some w ∧
      w.kind = CommitKind.markCompleted ∧
      w.job.status = BatchJobStatus.COMPLETED ∧
      w.job.processed_count =
        (BatchJob.mk BatchJobType.ADD 1 (some 2) [1, 2] 2 0
          BatchJobStatus.PENDING none).total_count) ∧
    ∀ w ∈ process_batch_job (fun _ => false) (fun _ => none)
        (BatchJob.mk BatchJobType.ADD 1 (some 2) [1, 2] 2 0
          BatchJobStatus.PENDING none)
        [CompanyCollectionAssociation.mk 1 (some 2),
         CompanyCollectionAssociation.mk 2 (some 2)],
      w.assocs =
        [CompanyCollectionAssociation.mk 1 (some 2),
         CompanyCollectionAssociation.mk 2 (some 2)] :=
  C9_add_all_present (fun _ => false) (fun _ => none)
    (BatchJob.mk BatchJobType.ADD 1 (some 2) [1, 2] 2 0 BatchJobStatus.PENDING none)
    [CompanyCollectionAssociation.mk 1 (some 2),
     CompanyCollectionAssociation.mk 2 (some 2)]
    (fun _ => rfl) (fun _ => rfl) rfl (by decide) rfl (by decide)

/-- C10: a successful cancellation (job found, status not terminal) returns
the acknowledgement and changes nothing but the status of that one job record:
collections and association rows are untouched, every other job record is
untouched, and the cancelled record keeps its job_type, collection ids,
counts, identifier list and error_message, with status now CANCELLED. -/
theorem C10_cancel_frame (db : Database) (job_id : Nat) (job : BatchJob)
    (hfound : lookupJob db job_id = some job)
    (h1 : job.status ≠ BatchJobStatus.COMPLETED)
    (h2 : job.status ≠ BatchJobStatus.FAILED)
    (h3 : job.status ≠ BatchJobStatus.CANCELLED) :
    ∃ db' : Database,
      cancel_batch_job db job_id = Except.ok (db', "Job cancelled successfully") ∧
      db'.collections = db.collections ∧
      db'.assocs = db.assocs ∧
      (∃ job' : BatchJob, lookupJob db' job_id = some job' ∧
        job'.status = BatchJobStatus.CANCELLED ∧
        job'.job_type = job.job_type ∧
        job'.source_collection_id = job.source_collection_id ∧
        job'.target_collection_id = job.target_collection_id ∧
        job'.total_count = job.total_count ∧
        job'.processed_count = job.processed_count ∧
        job'.company_ids_json = job.company_ids_json ∧
        job'.error_message = job.error_message) ∧
      ∀ p ∈ db'.jobs, p.1 ≠ job_id → p ∈ db.jobs := by
  refine ⟨updateJob db job_id { job with status := BatchJobStatus.CANCELLED }, ?_, rfl, rfl,
    ⟨{ job with status := BatchJobStatus.CANCELLED }, ?_,
      rfl, rfl, rfl, rfl, rfl, rfl, rfl, rfl⟩, ?_⟩
  · simp [cancel_batch_job, hfound, h1, h2, h3]
  · have hsome : (db.jobs.find? fun p => decide (p.1 = job_id)).isSome = true := by
      unfold lookupJob at hfound
      rcases hopt : db.jobs.find? fun p => decide (p.1 = job_id) with _ | pr
      · rw [hopt] at hfound; simp at hfound
      · simp [hopt]
    unfold lookupJob updateJob
    rw [find?_map_update job_id _ db.jobs hsome]
    rfl
  · intro p hp hne
    exact mem_of_mem_update job_id _ db.jobs p hp hne

/-- Witness for C10_cancel_frame: cancelling a PENDING job in a two-job
store. -/
theorem C10_cancel_frame_witness :
    ∃ db' : Database,
      cancel_batch_job
          (Database.mk [1]
            [(2, BatchJob.mk BatchJobType.ADD 1 (some 1) [8] 1 0
                  BatchJobStatus.PENDING none),
             (4, BatchJob.mk BatchJobType.DELETE 1 none [9] 1 1
                  BatchJobStatus.COMPLETED none)]
            [CompanyCollectionAssociation.mk 8 (some 1)]) 2 =
        Except.ok (db', "Job cancelled successfully") ∧
      db'.collections =
        (Database.mk [1]
          [(2, BatchJob.mk BatchJobType.ADD 1 (some 1) [8] 1 0
                BatchJobStatus.PENDING none),
           (4, BatchJob.mk BatchJobType.DELETE 1 none [9] 1 1
                BatchJobStatus.COMPLETED none)]
          [CompanyCollectionAssociation.mk 8 (some 1)]).collections ∧
      db'.assocs =
        (Database.mk [1]
          [(2, BatchJob.mk BatchJobType.ADD 1 (some 1) [8] 1 0
                BatchJobStatus.PENDING none),
           (4, BatchJob.mk BatchJobType.DELETE 1 none [9] 1 1
                BatchJobStatus.COMPLETED none)]
          [CompanyCollectionAssociation.mk 8 (some 1)]).assocs ∧
      (∃ job' : BatchJob, lookupJob db' 2 = some job' ∧
        job'.status = BatchJobStatus.CANCELLED ∧
        job'.job_type = BatchJobType.ADD ∧
        job'.source_collection_id = 1 ∧
        job'.target_collection_id = some 1 ∧
        job'.total_count = 1 ∧
        job'.processed_count = 0 ∧
        job'.company_ids_json = [8] ∧
        job'.error_message = none) ∧
      ∀ p ∈ db'.jobs, p.1 ≠ 2 →
        p ∈ (Database.mk [1]
          [(2, BatchJob.mk BatchJobType.ADD 1 (some 1) [8] 1 0
                BatchJobStatus.PENDING none),
           (4, BatchJob.mk BatchJobType.DELETE 1 none [9] 1 1
                BatchJobStatus.COMPLETED none)]
          [CompanyCollectionAssociation.mk 8 (some 1)]).jobs :=
  C10_cancel_frame
    (Database.mk [1]
      [(2, BatchJob.mk BatchJobType.ADD 1 (some 1) [8] 1 0 BatchJobStatus.PENDING none),
       (4, BatchJob.mk BatchJobType.DELETE 1 none [9] 1 1 BatchJobStatus.COMPLETED none)]
      [CompanyCollectionAssociation.mk 8 (some 1)]) 2
    (BatchJob.mk BatchJobType.ADD 1 (some 1) [8] 1 0 BatchJobStatus.PENDING none)
    (by decide) (by decide) (by decide) (by decide)

end BatchOps
